import Mathlib

/-
Verification of the native Win32 popup-menu bridge
(views/controls/menu/native_menu_win.cc).

The development shallowly embeds the controller `NativeMenuWin`: its
per-item registry `items_` (std::vector<ItemData*>), the OS menu resource
`menu_` (an HMENU, modelled as the ordered list of its item records), the
owner-draw flag, the first-item-index offset, the host-window message
handling (WM_MENUCOMMAND / WM_MENUSELECT / WM_EXITMENULOOP), and the
process-wide open-instance slot used by `RunMenuAt`.

Wide strings (std::wstring) are modelled as lists of UTF-16 code units
(natural numbers); the tab character L'\t' is code unit 9.
-/

/-- A UTF-16 string (std::wstring) as a list of code units. -/
abbrev Wstr := List Nat

/-- In-place update of the element at index `i`; identity when out of range.
Models a write through `menu_` items by position (SetMenuItemInfo with
MF_BYPOSITION) or through `items_[i]`. -/
def modifyAt (l : List α) (i : Nat) (f : α → α) : List α :=
  match l, i with
  | [], _ => []
  | a :: l, 0 => f a :: l
  | a :: l, n + 1 => a :: modifyAt l n f

/-- Insertion before index `n` (std::vector::insert(begin() + n, a) and
InsertMenuItem by position); identity when `n` exceeds the length. -/
def insertAt (n : Nat) (a : α) (l : List α) : List α :=
  match n, l with
  | 0, l => a :: l
  | _ + 1, [] => []
  | n + 1, b :: l => b :: insertAt n a l

/-- ui::MenuModel::ItemType (the values consumed by this file). -/
inductive ItemType where
  | command
  | check
  | radio
  | separator
  | submenu
deriving DecidableEq

/-- One item of the abstract menu model, with the per-index accessors the
controller consumes: GetTypeAt, GetLabelAt, IsEnabledAt, IsItemCheckedAt,
IsItemDynamicAt, GetCommandIdAt, GetAcceleratorAt (`accel = some text`
means GetAcceleratorAt returns true and the accelerator's GetShortcutText
is `text`), GetIconAt (`hasIcon`). -/
structure ModelItem where
  itype : ItemType
  label : Wstr
  enabled : Bool
  checked : Bool
  dynamic : Bool
  commandId : Nat
  accel : Option Wstr
  hasIcon : Bool
deriving DecidableEq

/-- Out-of-range accessor default (model accessors are only called in
range by the controller). -/
def defaultModelItem : ModelItem :=
  { itype := ItemType.command, label := [], enabled := false, checked := false,
    dynamic := false, commandId := 0, accel := Option.none, hasIcon := false }

/-- The abstract menu model (ui::MenuModel): an ordered item sequence plus
HasIcons() and GetFirstItemIndex(HMENU).  `firstIndexFn` is applied to the
item count of the native menu handle; for ordinary popup models it is the
constant 0, for SystemMenuModel it is max(0, count - 1). -/
structure MenuModel where
  items : List ModelItem
  hasIcons : Bool
  firstIndexFn : Nat → Nat

/-- Item accessor: model item at `i` (GetTypeAt/GetLabelAt/... share it). -/
def MenuModel.itemAt (m : MenuModel) (i : Nat) : ModelItem :=
  (m.items[i]?).getD defaultModelItem

/-- One entry of the OS menu resource, i.e. the observable per-position
record behind an HMENU: the MENUITEMINFO fields this file reads or writes.
A freshly inserted item has the MFS zero state: enabled, unchecked. -/
structure OSItem where
  isSeparator : Bool
  ownerDrawn : Bool
  radioCheck : Bool
  wID : Nat
  hasSubmenu : Bool
  enabled : Bool
  checked : Bool
  isDefault : Bool
  label : Wstr
deriving DecidableEq

/-- NativeMenuWin::ItemData.  `hasSubmenu` records whether the entry owns a
child Menu2 controller (the child controller itself is a separate instance
of this same state type and is not inlined here).  `modelIndex = none`
models the default-constructed placeholder used for separators, whose
`model_index` int is never assigned (indeterminate in the source). -/
structure ItemData where
  label : Wstr
  hasSubmenu : Bool
  modelIndex : Option Nat
deriving DecidableEq

/-- The dummy entry `new ItemData` pushed for separators
(AddSeparatorItemAt): empty label, no submenu, model_index never set. -/
def ItemData.placeholder : ItemData :=
  { label := [], hasSubmenu := false, modelIndex := Option.none }

/-- NativeMenuWin::MenuAction. -/
inductive MenuAction where
  | actionNone
  | actionPrevious
  | actionNext
deriving DecidableEq

/-- The controller state of one NativeMenuWin instance: the model pointer,
the HMENU contents, the `items_` registry, `owner_draw_`,
`system_menu_for_` (`some d` wraps a system menu whose default contents
are `d`), `first_item_index_` and `menu_action_`. -/
structure NativeMenuWin where
  model : MenuModel
  menu : List OSItem
  items : List ItemData
  ownerDraw : Bool
  systemMenu : Option (List OSItem)
  firstItemIndex : Nat
  menuAction : MenuAction

/-- NativeMenuWin::NativeMenuWin (lines 318-326): `owner_draw_` is
initialized from l10n_util::NeedOverrideDefaultUIFont and the absence of a
wrapped system menu; `menu_` is null (no items yet), `first_item_index_`
is 0 and `menu_action_` is MENU_ACTION_NONE. -/
def mkNativeMenuWin (model : MenuModel) (needOverrideDefaultUIFont : Bool)
    (systemMenuFor : Option (List OSItem)) : NativeMenuWin :=
  { model := model, menu := [], items := [],
    ownerDraw := needOverrideDefaultUIFont && systemMenuFor.isNone,
    systemMenu := systemMenuFor, firstItemIndex := 0,
    menuAction := MenuAction.actionNone }

/-- Whether the OS item at a menu position is a separator, read from the
menu contents; false when the position is out of range (GetMenuItemInfo
fails and the zeroed MENUITEMINFO carries no MF_SEPARATOR bit). -/
def sepAt (menu : List OSItem) (i : Nat) : Bool :=
  ((menu[i]?).map OSItem.isSeparator).getD false

/-- NativeMenuWin::IsSeparatorItemAt (lines 488-494). -/
def isSeparatorItemAt (s : NativeMenuWin) (menuIndex : Nat) : Bool :=
  sepAt s.menu menuIndex

/-- A by-position write into the OS menu resource (SetMenuItemInfo /
the insertion-time field setup acting on `menu_`). -/
def writeMenuAt (s : NativeMenuWin) (p : Nat) (f : OSItem → OSItem) :
    NativeMenuWin :=
  { s with menu := modifyAt s.menu p f }

/-- A write into the `items_` registry entry at index `j`. -/
def writeItemsAt (s : NativeMenuWin) (j : Nat) (f : ItemData → ItemData) :
    NativeMenuWin :=
  { s with items := modifyAt s.items j f }

/-- The label-formatting step of NativeMenuWin::UpdateMenuItemInfoForString
(lines 571-580): non-submenu items with a model-provided accelerator get a
tab (code unit 9) and the accelerator's shortcut text appended; submenu
items keep the label unchanged. -/
def formatLabelWithAccel (m : MenuModel) (modelIndex : Nat) (label : Wstr) :
    Wstr :=
  if (m.itemAt modelIndex).itype ≠ ItemType.submenu then
    match (m.itemAt modelIndex).accel with
    | some shortcut => label ++ 9 :: shortcut
    | Option.none => label
  else label

/-- NativeMenuWin::UpdateMenuItemInfoForString, state part (lines 567-590):
stores the formatted label into `items_[model_index]->label`.  The
MENUITEMINFO it fills receives MIIM_STRING with a pointer to that stored
string; callers below write `formatLabelWithAccel ...` into the OS item,
which is the value behind that pointer. -/
def updateMenuItemInfoForString (s : NativeMenuWin) (modelIndex : Nat)
    (label : Wstr) : NativeMenuWin :=
  writeItemsAt s modelIndex
    (fun d => { d with label := formatLabelWithAccel s.model modelIndex label })

/-- NativeMenuWin::SetMenuItemState (lines 537-553): no-op on separators;
otherwise overwrites the MFS state (enabled/disabled, checked, default) of
the OS item at `menuIndex`. -/
def setMenuItemState (s : NativeMenuWin) (menuIndex : Nat)
    (enabled checked isDefault : Bool) : NativeMenuWin :=
  if isSeparatorItemAt s menuIndex then s
  else
    writeMenuAt s menuIndex
      (fun it => { it with enabled := enabled, checked := checked,
                           isDefault := isDefault })

/-- NativeMenuWin::SetMenuItemLabel (lines 555-565): no-op on separators;
otherwise stores the formatted label in the registry
(UpdateMenuItemInfoForString) and pushes the stored string to the OS item
at `menuIndex`. -/
def setMenuItemLabel (s : NativeMenuWin) (menuIndex modelIndex : Nat)
    (label : Wstr) : NativeMenuWin :=
  if isSeparatorItemAt s menuIndex then s
  else
    writeMenuAt (updateMenuItemInfoForString s modelIndex label) menuIndex
      (fun it => { it with label := formatLabelWithAccel s.model modelIndex label })

/-- NativeMenuWin::AddMenuItemAt (lines 496-524): builds the ItemData
(empty label, submenu ownership for TYPE_SUBMENU, back-reference omitted,
model_index set), inserts it into `items_` at `model_index`, formats and
stores the label, and inserts the OS item (owner-draw per `owner_draw_`,
MFT_RADIOCHECK for radio items, wID = command id for non-submenu items) at
`menu_index`. -/
def addMenuItemAt (s : NativeMenuWin) (menuIndex modelIndex : Nat) :
    NativeMenuWin :=
  let item := s.model.itemAt modelIndex
  let isSub := item.itype == ItemType.submenu
  let data : ItemData :=
    { label := [], hasSubmenu := isSub, modelIndex := some modelIndex }
  let s1 := { s with items := insertAt modelIndex data s.items }
  let s2 := updateMenuItemInfoForString s1 modelIndex item.label
  let osItem : OSItem :=
    { isSeparator := false,
      ownerDrawn := s.ownerDraw,
      radioCheck := item.itype == ItemType.radio,
      wID := if isSub then 0 else item.commandId,
      hasSubmenu := isSub,
      enabled := true, checked := false, isDefault := false,
      label := formatLabelWithAccel s.model modelIndex item.label }
  { s2 with menu := insertAt menuIndex osItem s2.menu }

/-- NativeMenuWin::AddSeparatorItemAt (lines 526-535): inserts a dummy
ItemData into `items_` at `model_index` and an MFT_SEPARATOR item into the
menu at `menu_index`. -/
def addSeparatorItemAt (s : NativeMenuWin) (menuIndex modelIndex : Nat) :
    NativeMenuWin :=
  let osItem : OSItem :=
    { isSeparator := true, ownerDrawn := false, radioCheck := false,
      wID := 0, hasSubmenu := false,
      enabled := true, checked := false, isDefault := false, label := [] }
  { s with items := insertAt modelIndex ItemData.placeholder s.items,
           menu := insertAt menuIndex osItem s.menu }

/-- NativeMenuWin::ResetNativeMenu (lines 601-620): the popup case destroys
and recreates an empty menu; the system-menu case reverts the wrapped
system menu to its default contents (GetSystemMenu with revert TRUE, then
fetch). -/
def resetNativeMenu (s : NativeMenuWin) : NativeMenuWin :=
  match s.systemMenu with
  | some defaultContents => { s with menu := defaultContents }
  | Option.none => { s with menu := [] }

/-- One iteration of Rebuild's loop body (lines 375-382), at a model index,
with menu_index = model_index + first_item_index_. -/
def rebuildStep (s : NativeMenuWin) (modelIndex : Nat) : NativeMenuWin :=
  if (s.model.itemAt modelIndex).itype = ItemType.separator then
    addSeparatorItemAt s (modelIndex + s.firstItemIndex) modelIndex
  else
    addMenuItemAt s (modelIndex + s.firstItemIndex) modelIndex

/-- Rebuild's loop: `fuel` remaining iterations starting at model index
`modelIndex` (the source iterates menu_index from first_item_index_ to
first_item_index_ + GetItemCount()). -/
def rebuildLoop (s : NativeMenuWin) (modelIndex : Nat) : Nat → NativeMenuWin
  | 0 => s
  | Nat.succ fuel => rebuildLoop (rebuildStep s modelIndex) (modelIndex + 1) fuel

/-- NativeMenuWin::Rebuild (lines 369-383): reset the native menu, clear
`items_`, raise `owner_draw_` if the model has icons, recompute
`first_item_index_` from the model and the (reset) native menu, then build
every model item in order. -/
def rebuild (s : NativeMenuWin) : NativeMenuWin :=
  let s0 := resetNativeMenu s
  let s1 := { s0 with items := [],
                      ownerDraw := s0.model.hasIcons || s0.ownerDraw,
                      firstItemIndex := s0.model.firstIndexFn s0.menu.length }
  rebuildLoop s1 0 s1.model.items.length

/-- One iteration of UpdateStates' walk (lines 389-401) at a model index:
push enabled/checked state, and for dynamic items re-push the label.
Owned submenu controllers are separate instances of this state type; the
recursive `submenu->UpdateStates()` call applies this same walk to them. -/
def updateStatesStep (s : NativeMenuWin) (modelIndex : Nat) : NativeMenuWin :=
  let s1 := setMenuItemState s (modelIndex + s.firstItemIndex)
              (s.model.itemAt modelIndex).enabled
              (s.model.itemAt modelIndex).checked false
  if (s.model.itemAt modelIndex).dynamic then
    setMenuItemLabel s1 (modelIndex + s.firstItemIndex) modelIndex
      (s.model.itemAt modelIndex).label
  else s1

/-- NativeMenuWin::UpdateStates (lines 385-402): the walk over `items_`. -/
def updateStates (s : NativeMenuWin) : NativeMenuWin :=
  (List.range s.items.length).foldl updateStatesStep s

/-- NativeMenuWin::GetMenuAction (lines 408-410). -/
def getMenuAction (s : NativeMenuWin) : MenuAction :=
  s.menuAction

/-- SystemMenuModel::GetFirstItemIndex (lines 640-643): insertions are
allowed before the last pre-existing item (Close); the argument is
GetMenuItemCount of the wrapped native menu. -/
def systemMenuModelGetFirstItemIndex (count : Int) : Int :=
  max 0 (count - 1)

/-- The wID of the OS item at a position, as read back through
GetMenuItemInfo with MIIM_ID; none when out of range. -/
def wIdAt (menu : List OSItem) (i : Nat) : Option Nat :=
  (menu[i]?).map OSItem.wID

/-- The forward scan of MenuHostWindow::GetMenuItemIndexFromWPARAM: the
first position whose command id equals `w`. -/
def findMatchingPosition : List OSItem → Nat → Option Nat
  | [], _ => Option.none
  | it :: rest, w =>
    if it.wID = w then some 0
    else (findMatchingPosition rest w).map (· + 1)

/-- MenuHostWindow::GetMenuItemIndexFromWPARAM (lines 101-119): walk the
items for a matching command id; if none matches, Windows passed a
position, so return the raw value unchanged. -/
def getMenuItemIndexFromWPARAM (menu : List OSItem) (w : Nat) : Nat :=
  match findMatchingPosition menu w with
  | some i => i
  | Option.none => w

/-- A notification delivered to the abstract model (and through it to the
application): ActivatedAt, HighlightChangedTo, MenuClosed. -/
inductive Notification where
  | activatedAt (position : Nat)
  | highlightChangedTo (position : Nat)
  | menuClosed
deriving DecidableEq

/-- A task posted to the MessageLoop (the only one this file posts is the
deferred OnMenuClosed). -/
inductive PendingTask where
  | notifyMenuClosed
deriving DecidableEq

/-- The observable messaging state: the ordered trace of notifications the
model has received, and the MessageLoop's pending task queue (FIFO). -/
structure HostState where
  trace : List Notification
  tasks : List PendingTask
deriving DecidableEq

/-- The window messages MenuHostWindow::ProcessWindowMessage inspects.
WM_MEASUREITEM and WM_DRAWITEM only perform owner-draw geometry/painting
(no model/registry mutation) and are out of the modelled state. -/
inductive WindowMessage where
  | menuCommand (position : Nat)
  | menuSelect (w : Nat) (menu : Option (List OSItem))
  | exitMenuLoop
  | otherMessage
deriving DecidableEq

/-- MenuHostWindow::OnMenuCommand (lines 126-130): the model's
ActivatedAt(position). -/
def onMenuCommand (h : HostState) (position : Nat) : HostState :=
  { h with trace := h.trace ++ [Notification.activatedAt position] }

/-- MenuHostWindow::OnMenuSelect (lines 134-141): nothing when the menu is
null (closing on XP); otherwise resolve the position and notify
HighlightChangedTo.  The source's `position >= 0` test always holds here
because the resolved index and the raw WPARAM are non-negative. -/
def onMenuSelect (h : HostState) (w : Nat) (menu : Option (List OSItem)) :
    HostState :=
  match menu with
  | Option.none => h
  | some m =>
    { h with trace := h.trace ++
        [Notification.highlightChangedTo (getMenuItemIndexFromWPARAM m w)] }

/-- MenuHostWindow::OnMenuClosed (lines 250-252): the model's
MenuClosed(). -/
def onMenuClosed (h : HostState) : HostState :=
  { h with trace := h.trace ++ [Notification.menuClosed] }

/-- MenuHostWindow::ProcessWindowMessage (lines 254-287).  WM_MENUCOMMAND
notifies ActivatedAt inline; WM_EXITMENULOOP does NOT notify inline — it
posts OnMenuClosed to the MessageLoop so the close notification runs after
any WM_MENUCOMMAND delivered in the same callstack. -/
def processWindowMessage (h : HostState) (msg : WindowMessage) : HostState :=
  match msg with
  | WindowMessage.menuCommand position => onMenuCommand h position
  | WindowMessage.menuSelect w menu => onMenuSelect h w menu
  | WindowMessage.exitMenuLoop =>
    { h with tasks := h.tasks ++ [PendingTask.notifyMenuClosed] }
  | WindowMessage.otherMessage => h

/-- The MessageLoop draining its posted tasks (in FIFO order) after the
current control-flow turn ends. -/
def runPendingTasks (h : HostState) : HostState :=
  h.tasks.foldl
    (fun st t => match t with
      | PendingTask.notifyMenuClosed => onMenuClosed st)
    { h with tasks := [] }

/-- One control-flow turn: the OS delivers `msgs` on the same callstack,
then control returns to the MessageLoop which runs posted tasks. -/
def processTurn (h : HostState) (msgs : List WindowMessage) : HostState :=
  runPendingTasks (msgs.foldl processWindowMessage h)

/-- Process-wide state around one controller: the controller itself
(identified by `self` ids in the open-instance slot), the static
`open_native_menu_win_` pointer, and `listeners_called_`. -/
structure ProcessState where
  ctrl : NativeMenuWin
  openNativeMenuWin : Option Nat
  listenersCalled : Bool

/-- The prefix of NativeMenuWin::RunMenuAt (lines 336-353) executed before
TrackPopupMenuEx: CreateHostWindow, UpdateStates, menu_action_ :=
MENU_ACTION_NONE, open_native_menu_win_ := this (the keyboard hook is
installed), listeners_called_ := false.  This is exactly the state the
modal loop starts from. -/
def runMenuAtEntry (p : ProcessState) (self : Nat) : ProcessState :=
  { ctrl := { updateStates p.ctrl with menuAction := MenuAction.actionNone },
    openNativeMenuWin := some self,
    listenersCalled := false }

/-- NativeMenuWin::RunMenuAt (lines 336-363).  `track` is the
TrackPopupMenuEx modal loop: an arbitrary transformation of the process
state (message dispatch and the keyboard hook run inside it; the hook may
set menu_action_).  After the loop returns, the hook is removed and
open_native_menu_win_ is set back to NULL. -/
def runMenuAt (track : ProcessState → ProcessState) (p : ProcessState)
    (self : Nat) : ProcessState :=
  { track (runMenuAtEntry p self) with openNativeMenuWin := Option.none }

/-- The controller-facing operations a caller can perform between and
around openings, for lifetime invariants: Rebuild (the model's externally
visible state may have changed, so the call carries the model snapshot it
reads), UpdateStates, and RunMenuAt (whose only write to the controller
state besides UpdateStates is menu_action_: cleared on entry, possibly set
to the resolved action by the keyboard hook). -/
inductive MenuOp where
  | opRebuild (m : MenuModel)
  | opUpdateStates
  | opRunAt (resolved : MenuAction)

/-- The controller-state effect of each operation. -/
def applyMenuOp (s : NativeMenuWin) (op : MenuOp) : NativeMenuWin :=
  match op with
  | MenuOp.opRebuild m => rebuild { s with model := m }
  | MenuOp.opUpdateStates => updateStates s
  | MenuOp.opRunAt resolved => { updateStates s with menuAction := resolved }

/-- The registry entry Rebuild produces for model index `i`: a dummy
placeholder for separators, otherwise the full entry with the formatted
label and model_index = i. -/
def builtRegistryEntry (m : MenuModel) (i : Nat) : ItemData :=
  if (m.itemAt i).itype = ItemType.separator then ItemData.placeholder
  else
    { label := formatLabelWithAccel m i (m.itemAt i).label,
      hasSubmenu := (m.itemAt i).itype == ItemType.submenu,
      modelIndex := some i }

/-- The block of registry entries Rebuild's loop appends for `n` model
indices starting at `k`. -/
def buildBlock (m : MenuModel) (k : Nat) : Nat → List ItemData
  | 0 => []
  | Nat.succ n => builtRegistryEntry m k :: buildBlock m (k + 1) n

/-- The registry label read back at index `i`. -/
def labelAtRegistry (s : NativeMenuWin) (i : Nat) : Option Wstr :=
  (s.items[i]?).map ItemData.label

/-- Example model: a command item "A" (id 5), a separator, and a command
item "C" (id 7) whose accelerator shortcut text is "^T". -/
def exItemA : ModelItem :=
  { itype := ItemType.command, label := [65], enabled := true,
    checked := false, dynamic := false, commandId := 5,
    accel := Option.none, hasIcon := false }

/-- Example separator model item. -/
def exItemSep : ModelItem :=
  { itype := ItemType.separator, label := [], enabled := false,
    checked := false, dynamic := false, commandId := 0,
    accel := Option.none, hasIcon := false }

/-- Example command item with an accelerator (shortcut text [94, 84]). -/
def exItemC : ModelItem :=
  { itype := ItemType.command, label := [67], enabled := true,
    checked := true, dynamic := true, commandId := 7,
    accel := some [94, 84], hasIcon := false }

/-- Example three-item model (popup menu, first index 0, no icons). -/
def exModel : MenuModel :=
  { items := [exItemA, exItemSep, exItemC], hasIcons := false,
    firstIndexFn := fun _ => 0 }

/-- Example controller freshly constructed over `exModel`. -/
def exState : NativeMenuWin := mkNativeMenuWin exModel false Option.none

/-- Example controller after Rebuild. -/
def exBuilt : NativeMenuWin := rebuild exState

/-- Example process state in which another controller (id 5) already holds
the open-instance slot. -/
def exBusyProc : ProcessState :=
  { ctrl := exBuilt, openNativeMenuWin := some 5, listenersCalled := true }

/-- Example modal-loop behavior that records that the loop ran by
resolving a Next navigation action. -/
def exLoopMarksNext (q : ProcessState) : ProcessState :=
  { q with ctrl := { q.ctrl with menuAction := MenuAction.actionNext } }

/-- Example OS item with command id 5. -/
def exOSItemA : OSItem :=
  { isSeparator := false, ownerDrawn := false, radioCheck := false,
    wID := 5, hasSubmenu := false, enabled := true, checked := false,
    isDefault := false, label := [65] }

/-- Example OS separator item (command id slot 0). -/
def exOSItemSep : OSItem :=
  { isSeparator := true, ownerDrawn := false, radioCheck := false,
    wID := 0, hasSubmenu := false, enabled := true, checked := false,
    isDefault := false, label := [] }

/-- Example OS item with command id 7. -/
def exOSItemC : OSItem :=
  { isSeparator := false, ownerDrawn := false, radioCheck := false,
    wID := 7, hasSubmenu := false, enabled := true, checked := false,
    isDefault := false, label := [67] }

/-- Example menu contents carrying command ids 5, 0 (a separator slot)
and 7, for position resolution. -/
def exOSMenu : List OSItem := [exOSItemA, exOSItemSep, exOSItemC]

/-- Example ops sequence exercising every operation kind. -/
def exOps : List MenuOp :=
  [MenuOp.opUpdateStates, MenuOp.opRebuild exModel,
   MenuOp.opRunAt MenuAction.actionPrevious]

/-- Example state whose owner-draw flag is raised. -/
def exOwnerDrawState : NativeMenuWin := mkNativeMenuWin exModel true Option.none

/- ------------------------------------------------------------------ -/
/- Helper lemmas: list algebra for `modifyAt` and `insertAt`.          -/
/- ------------------------------------------------------------------ -/

theorem length_modifyAt (l : List α) (i : Nat) (f : α → α) :
    (modifyAt l i f).length = l.length := by
  induction l generalizing i with
  | nil => rfl
  | cons a l ih =>
    cases i with
    | zero => rfl
    | succ n => simp [modifyAt, ih]

theorem getElem?_modifyAt (l : List α) (i j : Nat) (f : α → α) :
    (modifyAt l i f)[j]? = if i = j then (l[j]?).map f else l[j]? := by
  induction l generalizing i j with
  | nil => simp [modifyAt]
  | cons a l ih =>
    cases i with
    | zero =>
      cases j with
      | zero => simp [modifyAt]
      | succ m => simp [modifyAt]
    | succ n =>
      cases j with
      | zero => simp [modifyAt]
      | succ m =>
        simp only [modifyAt, List.getElem?_cons_succ, ih]
        by_cases h : n = m
        · simp [h]
        · simp [h, fun hc => h (Nat.succ_injective hc)]

theorem modifyAt_modifyAt_same (l : List α) (i : Nat) (f g : α → α) :
    modifyAt (modifyAt l i f) i g = modifyAt l i (fun a => g (f a)) := by
  induction l generalizing i with
  | nil => rfl
  | cons a l ih =>
    cases i with
    | zero => rfl
    | succ n => simp [modifyAt, ih]

theorem modifyAt_comm (l : List α) (i j : Nat) (f g : α → α) (h : i ≠ j) :
    modifyAt (modifyAt l i f) j g = modifyAt (modifyAt l j g) i f := by
  induction l generalizing i j with
  | nil => rfl
  | cons a l ih =>
    cases i with
    | zero =>
      cases j with
      | zero => exact absurd rfl h
      | succ m => rfl
    | succ n =>
      cases j with
      | zero => rfl
      | succ m =>
        simp only [modifyAt]
        rw [ih n m fun hc => h (by rw [hc])]

theorem modifyAt_append (l r : List α) (a : α) (f : α → α) :
    modifyAt (l ++ a :: r) l.length f = l ++ f a :: r := by
  induction l with
  | nil => rfl
  | cons b l ih => simp [modifyAt, ih]

theorem insertAt_append (l r : List α) (a : α) :
    insertAt l.length a (l ++ r) = l ++ a :: r := by
  induction l with
  | nil => rfl
  | cons b l ih => simp [insertAt, ih]

/- ------------------------------------------------------------------ -/
/- Helper lemmas: projection stability of the write primitives.        -/
/- ------------------------------------------------------------------ -/

theorem sepAt_modifyAt (l : List OSItem) (p q : Nat) (f : OSItem → OSItem)
    (hf : ∀ a, (f a).isSeparator = a.isSeparator) :
    sepAt (modifyAt l p f) q = sepAt l q := by
  simp only [sepAt, getElem?_modifyAt]
  by_cases h : p = q
  · subst h
    cases l[p]? with
    | none => simp
    | some a => simp [hf]
  · simp [h]

theorem isSeparatorItemAt_setMenuItemState (s : NativeMenuWin)
    (p q : Nat) (e c d : Bool) :
    isSeparatorItemAt (setMenuItemState s p e c d) q = isSeparatorItemAt s q := by
  unfold setMenuItemState
  by_cases h : isSeparatorItemAt s p
  · simp [h]
  · simp only [h, if_false, Bool.false_eq_true]
    exact sepAt_modifyAt s.menu p q _ (fun a => rfl)

theorem isSeparatorItemAt_setMenuItemLabel (s : NativeMenuWin)
    (p j : Nat) (l : Wstr) (q : Nat) :
    isSeparatorItemAt (setMenuItemLabel s p j l) q = isSeparatorItemAt s q := by
  unfold setMenuItemLabel
  by_cases h : isSeparatorItemAt s p
  · simp [h]
  · simp only [h, if_false, Bool.false_eq_true]
    exact sepAt_modifyAt s.menu p q _ (fun a => rfl)

theorem model_setMenuItemState (s : NativeMenuWin) (p : Nat) (e c d : Bool) :
    (setMenuItemState s p e c d).model = s.model := by
  unfold setMenuItemState
  by_cases h : isSeparatorItemAt s p <;> simp [h, writeMenuAt]

theorem items_setMenuItemState (s : NativeMenuWin) (p : Nat) (e c d : Bool) :
    (setMenuItemState s p e c d).items = s.items := by
  unfold setMenuItemState
  by_cases h : isSeparatorItemAt s p <;> simp [h, writeMenuAt]

theorem firstItemIndex_setMenuItemState (s : NativeMenuWin) (p : Nat)
    (e c d : Bool) :
    (setMenuItemState s p e c d).firstItemIndex = s.firstItemIndex := by
  unfold setMenuItemState
  by_cases h : isSeparatorItemAt s p <;> simp [h, writeMenuAt]

theorem ownerDraw_setMenuItemState (s : NativeMenuWin) (p : Nat)
    (e c d : Bool) :
    (setMenuItemState s p e c d).ownerDraw = s.ownerDraw := by
  unfold setMenuItemState
  by_cases h : isSeparatorItemAt s p <;> simp [h, writeMenuAt]

theorem menuAction_setMenuItemState (s : NativeMenuWin) (p : Nat)
    (e c d : Bool) :
    (setMenuItemState s p e c d).menuAction = s.menuAction := by
  unfold setMenuItemState
  by_cases h : isSeparatorItemAt s p <;> simp [h, writeMenuAt]

theorem model_setMenuItemLabel (s : NativeMenuWin) (p j : Nat) (l : Wstr) :
    (setMenuItemLabel s p j l).model = s.model := by
  unfold setMenuItemLabel
  by_cases h : isSeparatorItemAt s p <;>
    simp [h, writeMenuAt, updateMenuItemInfoForString, writeItemsAt]

theorem firstItemIndex_setMenuItemLabel (s : NativeMenuWin) (p j : Nat)
    (l : Wstr) :
    (setMenuItemLabel s p j l).firstItemIndex = s.firstItemIndex := by
  unfold setMenuItemLabel
  by_cases h : isSeparatorItemAt s p <;>
    simp [h, writeMenuAt, updateMenuItemInfoForString, writeItemsAt]

theorem ownerDraw_setMenuItemLabel (s : NativeMenuWin) (p j : Nat)
    (l : Wstr) :
    (setMenuItemLabel s p j l).ownerDraw = s.ownerDraw := by
  unfold setMenuItemLabel
  by_cases h : isSeparatorItemAt s p <;>
    simp [h, writeMenuAt, updateMenuItemInfoForString, writeItemsAt]

theorem menuAction_setMenuItemLabel (s : NativeMenuWin) (p j : Nat)
    (l : Wstr) :
    (setMenuItemLabel s p j l).menuAction = s.menuAction := by
  unfold setMenuItemLabel
  by_cases h : isSeparatorItemAt s p <;>
    simp [h, writeMenuAt, updateMenuItemInfoForString, writeItemsAt]

theorem items_length_setMenuItemLabel (s : NativeMenuWin) (p j : Nat)
    (l : Wstr) :
    (setMenuItemLabel s p j l).items.length = s.items.length := by
  unfold setMenuItemLabel
  by_cases h : isSeparatorItemAt s p <;>
    simp [h, writeMenuAt, updateMenuItemInfoForString, writeItemsAt,
          length_modifyAt]

/- ------------------------------------------------------------------ -/
/- Helper lemmas: algebra of the write primitives.                     -/
/- ------------------------------------------------------------------ -/

theorem model_writeMenuAt (s : NativeMenuWin) (p : Nat) (f : OSItem → OSItem) :
    (writeMenuAt s p f).model = s.model := rfl

theorem firstItemIndex_writeMenuAt (s : NativeMenuWin) (p : Nat)
    (f : OSItem → OSItem) :
    (writeMenuAt s p f).firstItemIndex = s.firstItemIndex := rfl

theorem model_writeItemsAt (s : NativeMenuWin) (j : Nat)
    (u : ItemData → ItemData) :
    (writeItemsAt s j u).model = s.model := rfl

theorem firstItemIndex_writeItemsAt (s : NativeMenuWin) (j : Nat)
    (u : ItemData → ItemData) :
    (writeItemsAt s j u).firstItemIndex = s.firstItemIndex := rfl

theorem isSeparatorItemAt_writeItemsAt (s : NativeMenuWin) (j : Nat)
    (u : ItemData → ItemData) (q : Nat) :
    isSeparatorItemAt (writeItemsAt s j u) q = isSeparatorItemAt s q := rfl

theorem writeMenuAt_writeMenuAt (s : NativeMenuWin) (p : Nat)
    (f g : OSItem → OSItem) :
    writeMenuAt (writeMenuAt s p f) p g = writeMenuAt s p (fun a => g (f a)) := by
  simp [writeMenuAt, modifyAt_modifyAt_same]

theorem writeMenuAt_comm (s : NativeMenuWin) (p q : Nat)
    (f g : OSItem → OSItem) (h : p ≠ q) :
    writeMenuAt (writeMenuAt s p f) q g = writeMenuAt (writeMenuAt s q g) p f := by
  simp [writeMenuAt, modifyAt_comm _ _ _ _ _ h]

theorem writeItemsAt_writeItemsAt (s : NativeMenuWin) (j : Nat)
    (u v : ItemData → ItemData) :
    writeItemsAt (writeItemsAt s j u) j v = writeItemsAt s j (fun a => v (u a)) := by
  simp [writeItemsAt, modifyAt_modifyAt_same]

theorem writeItemsAt_comm (s : NativeMenuWin) (j k : Nat)
    (u v : ItemData → ItemData) (h : j ≠ k) :
    writeItemsAt (writeItemsAt s j u) k v = writeItemsAt (writeItemsAt s k v) j u := by
  simp [writeItemsAt, modifyAt_comm _ _ _ _ _ h]

theorem writeItemsAt_writeMenuAt (s : NativeMenuWin) (p j : Nat)
    (f : OSItem → OSItem) (u : ItemData → ItemData) :
    writeItemsAt (writeMenuAt s p f) j u = writeMenuAt (writeItemsAt s j u) p f := rfl

theorem isSeparatorItemAt_writeMenuAt_state (s : NativeMenuWin) (p q : Nat)
    (e c d : Bool) :
    isSeparatorItemAt
      (writeMenuAt s p (fun it => { it with enabled := e, checked := c,
                                            isDefault := d })) q
      = isSeparatorItemAt s q :=
  sepAt_modifyAt s.menu p q _ (fun _ => rfl)

theorem isSeparatorItemAt_writeMenuAt_label (s : NativeMenuWin) (p q : Nat)
    (w : Wstr) :
    isSeparatorItemAt (writeMenuAt s p (fun it => { it with label := w })) q
      = isSeparatorItemAt s q :=
  sepAt_modifyAt s.menu p q _ (fun _ => rfl)

theorem isSeparatorItemAt_writeMenuAt_stateLabel (s : NativeMenuWin)
    (p q : Nat) (e c d : Bool) (w : Wstr) :
    isSeparatorItemAt
      (writeMenuAt s p (fun it => { it with enabled := e, checked := c,
                                            isDefault := d, label := w })) q
      = isSeparatorItemAt s q :=
  sepAt_modifyAt s.menu p q _ (fun _ => rfl)

/- ------------------------------------------------------------------ -/
/- Helper lemmas: normal forms of one UpdateStates iteration.          -/
/- ------------------------------------------------------------------ -/

theorem updateStatesStep_sep (s : NativeMenuWin) (i : Nat)
    (hs : isSeparatorItemAt s (i + s.firstItemIndex) = true) :
    updateStatesStep s i = s := by
  unfold updateStatesStep
  by_cases hd : (s.model.itemAt i).dynamic
  · simp [setMenuItemState, setMenuItemLabel, hs, hd]
  · simp [setMenuItemState, hs, hd]

theorem updateStatesStep_notsep_notdyn (s : NativeMenuWin) (i : Nat)
    (hs : isSeparatorItemAt s (i + s.firstItemIndex) = false)
    (hd : (s.model.itemAt i).dynamic = false) :
    updateStatesStep s i =
      writeMenuAt s (i + s.firstItemIndex)
        (fun it => { it with enabled := (s.model.itemAt i).enabled,
                             checked := (s.model.itemAt i).checked,
                             isDefault := false }) := by
  unfold updateStatesStep
  simp [setMenuItemState, hs, hd]

theorem updateStatesStep_notsep_dyn (s : NativeMenuWin) (i : Nat)
    (hs : isSeparatorItemAt s (i + s.firstItemIndex) = false)
    (hd : (s.model.itemAt i).dynamic = true) :
    updateStatesStep s i =
      writeMenuAt
        (writeItemsAt s i
          (fun dd => { dd with
            label := formatLabelWithAccel s.model i (s.model.itemAt i).label }))
        (i + s.firstItemIndex)
        (fun it => { it with enabled := (s.model.itemAt i).enabled,
                             checked := (s.model.itemAt i).checked,
                             isDefault := false,
                             label := formatLabelWithAccel s.model i
                                        (s.model.itemAt i).label }) := by
  unfold updateStatesStep
  simp only [hd, if_true]
  rw [setMenuItemState]
  simp only [hs, Bool.false_eq_true, if_false]
  rw [setMenuItemLabel]
  simp only [firstItemIndex_writeMenuAt, isSeparatorItemAt_writeMenuAt_state,
             hs, Bool.false_eq_true, if_false]
  rw [updateMenuItemInfoForString]
  simp only [model_writeMenuAt]
  rw [writeItemsAt_writeMenuAt, writeMenuAt_writeMenuAt]

theorem model_updateStatesStep (s : NativeMenuWin) (i : Nat) :
    (updateStatesStep s i).model = s.model := by
  unfold updateStatesStep
  by_cases hd : (s.model.itemAt i).dynamic <;>
    simp [hd, model_setMenuItemLabel, model_setMenuItemState]

theorem firstItemIndex_updateStatesStep (s : NativeMenuWin) (i : Nat) :
    (updateStatesStep s i).firstItemIndex = s.firstItemIndex := by
  unfold updateStatesStep
  by_cases hd : (s.model.itemAt i).dynamic <;>
    simp [hd, firstItemIndex_setMenuItemLabel, firstItemIndex_setMenuItemState]

theorem ownerDraw_updateStatesStep (s : NativeMenuWin) (i : Nat) :
    (updateStatesStep s i).ownerDraw = s.ownerDraw := by
  unfold updateStatesStep
  by_cases hd : (s.model.itemAt i).dynamic <;>
    simp [hd, ownerDraw_setMenuItemLabel, ownerDraw_setMenuItemState]

theorem itemsLength_updateStatesStep (s : NativeMenuWin) (i : Nat) :
    (updateStatesStep s i).items.length = s.items.length := by
  unfold updateStatesStep
  by_cases hd : (s.model.itemAt i).dynamic <;>
    simp [hd, items_length_setMenuItemLabel, items_setMenuItemState]

theorem isSeparatorItemAt_updateStatesStep (s : NativeMenuWin) (i q : Nat) :
    isSeparatorItemAt (updateStatesStep s i) q = isSeparatorItemAt s q := by
  unfold updateStatesStep
  by_cases hd : (s.model.itemAt i).dynamic <;>
    simp [hd, isSeparatorItemAt_setMenuItemLabel, isSeparatorItemAt_setMenuItemState]

theorem updateStatesStep_idem (s : NativeMenuWin) (i : Nat) :
    updateStatesStep (updateStatesStep s i) i = updateStatesStep s i := by
  cases hs : isSeparatorItemAt s (i + s.firstItemIndex) with
  | true =>
    rw [updateStatesStep_sep s i hs, updateStatesStep_sep s i hs]
  | false =>
    cases hd : (s.model.itemAt i).dynamic with
    | false =>
      rw [updateStatesStep_notsep_notdyn s i hs hd]
      rw [updateStatesStep_notsep_notdyn _ i
            (by simp [firstItemIndex_writeMenuAt,
                      isSeparatorItemAt_writeMenuAt_state, hs])
            (by simp [model_writeMenuAt, hd])]
      simp only [model_writeMenuAt, firstItemIndex_writeMenuAt]
      rw [writeMenuAt_writeMenuAt]
    | true =>
      rw [updateStatesStep_notsep_dyn s i hs hd]
      rw [updateStatesStep_notsep_dyn _ i
            (by simp [firstItemIndex_writeMenuAt, firstItemIndex_writeItemsAt,
                      isSeparatorItemAt_writeMenuAt_stateLabel,
                      isSeparatorItemAt_writeItemsAt, hs])
            (by simp [model_writeMenuAt, model_writeItemsAt, hd])]
      simp only [model_writeMenuAt, model_writeItemsAt,
                 firstItemIndex_writeMenuAt, firstItemIndex_writeItemsAt]
      rw [writeItemsAt_writeMenuAt, writeMenuAt_writeMenuAt,
          writeItemsAt_writeItemsAt]

theorem updateStatesStep_comm (s : NativeMenuWin) (i j : Nat) (hne : i ≠ j) :
    updateStatesStep (updateStatesStep s i) j
      = updateStatesStep (updateStatesStep s j) i := by
  cases hsi : isSeparatorItemAt s (i + s.firstItemIndex) with
  | true =>
    rw [updateStatesStep_sep s i hsi,
        updateStatesStep_sep (updateStatesStep s j) i
          (by simp [firstItemIndex_updateStatesStep,
                    isSeparatorItemAt_updateStatesStep, hsi])]
  | false =>
    cases hsj : isSeparatorItemAt s (j + s.firstItemIndex) with
    | true =>
      rw [updateStatesStep_sep s j hsj,
          updateStatesStep_sep (updateStatesStep s i) j
            (by simp [firstItemIndex_updateStatesStep,
                      isSeparatorItemAt_updateStatesStep, hsj])]
    | false =>
      have hp : i + s.firstItemIndex ≠ j + s.firstItemIndex := by omega
      cases hdi : (s.model.itemAt i).dynamic with
      | false =>
        rw [updateStatesStep_notsep_notdyn s i hsi hdi]
        cases hdj : (s.model.itemAt j).dynamic with
        | false =>
          rw [updateStatesStep_notsep_notdyn s j hsj hdj]
          rw [updateStatesStep_notsep_notdyn _ j
                (by simp [firstItemIndex_writeMenuAt,
                          isSeparatorItemAt_writeMenuAt_state, hsj])
                (by simp [model_writeMenuAt, hdj]),
              updateStatesStep_notsep_notdyn _ i
                (by simp [firstItemIndex_writeMenuAt,
                          isSeparatorItemAt_writeMenuAt_state, hsi])
                (by simp [model_writeMenuAt, hdi])]
          simp only [model_writeMenuAt, firstItemIndex_writeMenuAt]
          exact writeMenuAt_comm s _ _ _ _ hp
        | true =>
          rw [updateStatesStep_notsep_dyn s j hsj hdj]
          rw [updateStatesStep_notsep_dyn _ j
                (by simp [firstItemIndex_writeMenuAt,
                          isSeparatorItemAt_writeMenuAt_state, hsj])
                (by simp [model_writeMenuAt, hdj]),
              updateStatesStep_notsep_notdyn _ i
                (by simp [firstItemIndex_writeMenuAt, firstItemIndex_writeItemsAt,
                          isSeparatorItemAt_writeMenuAt_stateLabel,
                          isSeparatorItemAt_writeItemsAt, hsi])
                (by simp [model_writeMenuAt, model_writeItemsAt, hdi])]
          simp only [model_writeMenuAt, model_writeItemsAt,
                     firstItemIndex_writeMenuAt, firstItemIndex_writeItemsAt]
          rw [writeItemsAt_writeMenuAt]
          exact writeMenuAt_comm _ _ _ _ _ hp
      | true =>
        rw [updateStatesStep_notsep_dyn s i hsi hdi]
        cases hdj : (s.model.itemAt j).dynamic with
        | false =>
          rw [updateStatesStep_notsep_notdyn s j hsj hdj]
          rw [updateStatesStep_notsep_notdyn _ j
                (by simp [firstItemIndex_writeMenuAt, firstItemIndex_writeItemsAt,
                          isSeparatorItemAt_writeMenuAt_stateLabel,
                          isSeparatorItemAt_writeItemsAt, hsj])
                (by simp [model_writeMenuAt, model_writeItemsAt, hdj]),
              updateStatesStep_notsep_dyn _ i
                (by simp [firstItemIndex_writeMenuAt,
                          isSeparatorItemAt_writeMenuAt_state, hsi])
                (by simp [model_writeMenuAt, hdi])]
          simp only [model_writeMenuAt, model_writeItemsAt,
                     firstItemIndex_writeMenuAt, firstItemIndex_writeItemsAt]
          rw [writeItemsAt_writeMenuAt]
          exact (writeMenuAt_comm _ _ _ _ _ hp.symm).symm
        | true =>
          rw [updateStatesStep_notsep_dyn s j hsj hdj]
          rw [updateStatesStep_notsep_dyn _ j
                (by simp [firstItemIndex_writeMenuAt, firstItemIndex_writeItemsAt,
                          isSeparatorItemAt_writeMenuAt_stateLabel,
                          isSeparatorItemAt_writeItemsAt, hsj])
                (by simp [model_writeMenuAt, model_writeItemsAt, hdj]),
              updateStatesStep_notsep_dyn _ i
                (by simp [firstItemIndex_writeMenuAt, firstItemIndex_writeItemsAt,
                          isSeparatorItemAt_writeMenuAt_stateLabel,
                          isSeparatorItemAt_writeItemsAt, hsi])
                (by simp [model_writeMenuAt, model_writeItemsAt, hdi])]
          simp only [model_writeMenuAt, model_writeItemsAt,
                     firstItemIndex_writeMenuAt, firstItemIndex_writeItemsAt]
          rw [writeItemsAt_writeMenuAt, writeItemsAt_writeMenuAt,
              writeItemsAt_comm _ _ _ _ _ hne]
          exact writeMenuAt_comm _ _ _ _ _ hp

/- ------------------------------------------------------------------ -/
/- Helper lemmas: folds of idempotent, pairwise-commuting steps.       -/
/- ------------------------------------------------------------------ -/

theorem foldl_pull {σ : Type} (step : σ → Nat → σ)
    (comm : ∀ s i j, i ≠ j → step (step s i) j = step (step s j) i) :
    ∀ (t : List Nat) (i : Nat), i ∉ t →
      ∀ s, t.foldl step (step s i) = step (t.foldl step s) i := by
  intro t
  induction t with
  | nil => intro i _ s; rfl
  | cons j t ih =>
    intro i hi s
    have hij : i ≠ j := fun hc => hi (hc ▸ List.mem_cons_self j t)
    have hit : i ∉ t := fun hc => hi (List.mem_cons_of_mem j hc)
    simp only [List.foldl_cons]
    rw [comm s i j hij]
    exact ih i hit (step s j)

theorem foldl_twice {σ : Type} (step : σ → Nat → σ)
    (idem : ∀ s i, step (step s i) i = step s i)
    (comm : ∀ s i j, i ≠ j → step (step s i) j = step (step s j) i) :
    ∀ (l : List Nat), l.Nodup →
      ∀ s, l.foldl step (l.foldl step s) = l.foldl step s := by
  intro l
  induction l with
  | nil => intro _ s; rfl
  | cons i t ih =>
    intro hnd s
    have hi : i ∉ t := (List.nodup_cons.mp hnd).1
    have hndt : t.Nodup := (List.nodup_cons.mp hnd).2
    simp only [List.foldl_cons]
    rw [foldl_pull step comm t i hi s]
    rw [idem (t.foldl step s) i]
    rw [← foldl_pull step comm t i hi s]
    exact ih hndt (step s i)

theorem model_updateStates (s : NativeMenuWin) :
    (updateStates s).model = s.model := by
  unfold updateStates
  generalize List.range s.items.length = l
  induction l generalizing s with
  | nil => rfl
  | cons i t ih =>
    simp only [List.foldl_cons]
    rw [ih (updateStatesStep s i), model_updateStatesStep]

theorem ownerDraw_updateStates (s : NativeMenuWin) :
    (updateStates s).ownerDraw = s.ownerDraw := by
  unfold updateStates
  generalize List.range s.items.length = l
  induction l generalizing s with
  | nil => rfl
  | cons i t ih =>
    simp only [List.foldl_cons]
    rw [ih (updateStatesStep s i), ownerDraw_updateStatesStep]

theorem itemsLength_updateStates (s : NativeMenuWin) :
    (updateStates s).items.length = s.items.length := by
  unfold updateStates
  generalize List.range s.items.length = l
  induction l generalizing s with
  | nil => rfl
  | cons i t ih =>
    simp only [List.foldl_cons]
    rw [ih (updateStatesStep s i), itemsLength_updateStatesStep]

/- ------------------------------------------------------------------ -/
/- Helper lemmas: the registry produced by Rebuild.                    -/
/- ------------------------------------------------------------------ -/

theorem model_resetNativeMenu (s : NativeMenuWin) :
    (resetNativeMenu s).model = s.model := by
  unfold resetNativeMenu
  cases s.systemMenu <;> rfl

theorem items_resetNativeMenu (s : NativeMenuWin) :
    (resetNativeMenu s).items = s.items := by
  unfold resetNativeMenu
  cases s.systemMenu <;> rfl

theorem ownerDraw_resetNativeMenu (s : NativeMenuWin) :
    (resetNativeMenu s).ownerDraw = s.ownerDraw := by
  unfold resetNativeMenu
  cases s.systemMenu <;> rfl

theorem model_rebuildStep (s : NativeMenuWin) (k : Nat) :
    (rebuildStep s k).model = s.model := by
  unfold rebuildStep addSeparatorItemAt addMenuItemAt
  by_cases h : (s.model.itemAt k).itype = ItemType.separator <;>
    simp [h, updateMenuItemInfoForString, writeItemsAt]

theorem ownerDraw_rebuildStep (s : NativeMenuWin) (k : Nat) :
    (rebuildStep s k).ownerDraw = s.ownerDraw := by
  unfold rebuildStep addSeparatorItemAt addMenuItemAt
  by_cases h : (s.model.itemAt k).itype = ItemType.separator <;>
    simp [h, updateMenuItemInfoForString, writeItemsAt]

theorem firstItemIndex_rebuildStep (s : NativeMenuWin) (k : Nat) :
    (rebuildStep s k).firstItemIndex = s.firstItemIndex := by
  unfold rebuildStep addSeparatorItemAt addMenuItemAt
  by_cases h : (s.model.itemAt k).itype = ItemType.separator <;>
    simp [h, updateMenuItemInfoForString, writeItemsAt]

theorem insertAt_length_self (l : List α) (a : α) :
    insertAt l.length a l = l ++ [a] := by
  induction l with
  | nil => rfl
  | cons b l ih => simp [insertAt, ih]

theorem modifyAt_append_last (l : List α) (a : α) (f : α → α) :
    modifyAt (l ++ [a]) l.length f = l ++ [f a] := by
  induction l with
  | nil => rfl
  | cons b l ih => simp [modifyAt, ih]

theorem rebuildStep_items (s : NativeMenuWin) (k : Nat)
    (hlen : s.items.length = k) :
    (rebuildStep s k).items = s.items ++ [builtRegistryEntry s.model k] := by
  subst hlen
  unfold rebuildStep
  by_cases h : (s.model.itemAt s.items.length).itype = ItemType.separator
  · simp only [h, if_true]
    unfold addSeparatorItemAt builtRegistryEntry
    simp only [h, if_true]
    simp [insertAt_length_self]
  · simp only [h, if_false]
    unfold addMenuItemAt updateMenuItemInfoForString writeItemsAt
    unfold builtRegistryEntry
    simp only [h, if_false]
    simp [insertAt_length_self, modifyAt_append_last]

theorem rebuildLoop_items (n : Nat) :
    ∀ (k : Nat) (s : NativeMenuWin), s.items.length = k →
      (rebuildLoop s k n).items = s.items ++ buildBlock s.model k n := by
  induction n with
  | zero =>
    intro k s _
    simp [rebuildLoop, buildBlock]
  | succ n ih =>
    intro k s h
    show (rebuildLoop (rebuildStep s k) (k + 1) n).items = _
    rw [ih (k + 1) (rebuildStep s k)
          (by rw [rebuildStep_items s k h]; simp [h])]
    rw [rebuildStep_items s k h, model_rebuildStep]
    simp [buildBlock]

theorem length_buildBlock (m : MenuModel) : ∀ (n k : Nat),
    (buildBlock m k n).length = n := by
  intro n
  induction n with
  | zero => intro k; rfl
  | succ n ih => intro k; simp [buildBlock, ih]

theorem getElem?_buildBlock (m : MenuModel) : ∀ (n k i : Nat), i < n →
    (buildBlock m k n)[i]? = some (builtRegistryEntry m (k + i)) := by
  intro n
  induction n with
  | zero => intro k i h; omega
  | succ n ih =>
    intro k i h
    cases i with
    | zero => simp [buildBlock]
    | succ i =>
      have := ih (k + 1) i (by omega)
      simp only [buildBlock, List.getElem?_cons_succ]
      rw [this]
      have : k + 1 + i = k + (i + 1) := by omega
      rw [this]

theorem rebuildLoop_items_nil (n : Nat) (s : NativeMenuWin)
    (h : s.items = []) :
    (rebuildLoop s 0 n).items = buildBlock s.model 0 n := by
  rw [rebuildLoop_items n 0 s (by rw [h]; rfl), h]
  rfl

theorem rebuild_items (s : NativeMenuWin) :
    (rebuild s).items = buildBlock s.model 0 s.model.items.length := by
  unfold rebuild
  rw [rebuildLoop_items_nil]
  · simp [model_resetNativeMenu]
  · rfl

theorem ownerDraw_rebuildLoop (n : Nat) :
    ∀ (k : Nat) (s : NativeMenuWin),
      (rebuildLoop s k n).ownerDraw = s.ownerDraw := by
  induction n with
  | zero => intro k s; rfl
  | succ n ih =>
    intro k s
    show (rebuildLoop (rebuildStep s k) (k + 1) n).ownerDraw = _
    rw [ih (k + 1) (rebuildStep s k), ownerDraw_rebuildStep]

theorem ownerDraw_rebuild (s : NativeMenuWin) :
    (rebuild s).ownerDraw = (s.model.hasIcons || s.ownerDraw) := by
  unfold rebuild
  rw [ownerDraw_rebuildLoop]
  simp [model_resetNativeMenu, ownerDraw_resetNativeMenu]

/- ------------------------------------------------------------------ -/
/- Helper lemmas: position resolution and label reads.                 -/
/- ------------------------------------------------------------------ -/

theorem findMatchingPosition_eq_some (menu : List OSItem) (w : Nat) :
    ∀ (k : Nat), wIdAt menu k = some w →
      (∀ j, j < k → wIdAt menu j ≠ some w) →
      findMatchingPosition menu w = some k := by
  induction menu with
  | nil => intro k hk _; simp [wIdAt] at hk
  | cons it rest ih =>
    intro k hk hfirst
    cases k with
    | zero =>
      have h0 : it.wID = w := by simpa [wIdAt] using hk
      simp [findMatchingPosition, h0]
    | succ k =>
      have h0 : it.wID ≠ w := by
        intro hc
        exact hfirst 0 (Nat.succ_pos k) (by simp [wIdAt, hc])
      simp only [findMatchingPosition, h0, if_false]
      rw [ih k (by simpa [wIdAt] using hk)
            (fun j hj => by
              have := hfirst (j + 1) (by omega)
              simpa [wIdAt] using this)]
      rfl

theorem findMatchingPosition_eq_none (menu : List OSItem) (w : Nat)
    (h : ∀ j, wIdAt menu j ≠ some w) :
    findMatchingPosition menu w = Option.none := by
  induction menu with
  | nil => rfl
  | cons it rest ih =>
    have h0 : it.wID ≠ w := by
      intro hc
      exact h 0 (by simp [wIdAt, hc])
    simp only [findMatchingPosition, h0, if_false]
    rw [ih (fun j => by
      have := h (j + 1)
      simpa [wIdAt] using this)]
    rfl

theorem labelAtRegistry_setMenuItemLabel_other (s : NativeMenuWin)
    (p j : Nat) (l : Wstr) (i : Nat) (hne : j ≠ i) :
    labelAtRegistry (setMenuItemLabel s p j l) i = labelAtRegistry s i := by
  unfold setMenuItemLabel
  by_cases h : isSeparatorItemAt s p
  · simp [h]
  · simp [h, writeMenuAt, updateMenuItemInfoForString, writeItemsAt,
          labelAtRegistry, getElem?_modifyAt, hne]

theorem labelAtRegistry_setMenuItemLabel_self (s : NativeMenuWin)
    (p j : Nat) (l : Wstr)
    (hsep : isSeparatorItemAt s p = false) (hj : j < s.items.length) :
    labelAtRegistry (setMenuItemLabel s p j l) j
      = some (formatLabelWithAccel s.model j l) := by
  unfold setMenuItemLabel
  simp [hsep, writeMenuAt, updateMenuItemInfoForString, writeItemsAt,
        labelAtRegistry, getElem?_modifyAt, List.getElem?_eq_getElem hj]

theorem labelAtRegistry_foldl_setMenuItemLabel (i : Nat)
    (others : List (Nat × Nat × Wstr)) :
    ∀ (X : NativeMenuWin), (∀ c ∈ others, c.2.1 ≠ i) →
      labelAtRegistry
        (others.foldl (fun st c => setMenuItemLabel st c.1 c.2.1 c.2.2) X) i
        = labelAtRegistry X i := by
  induction others with
  | nil => intro X _; rfl
  | cons c t ih =>
    intro X hall
    simp only [List.foldl_cons]
    rw [ih (setMenuItemLabel X c.1 c.2.1 c.2.2)
          (fun d hd => hall d (List.mem_cons_of_mem c hd))]
    exact labelAtRegistry_setMenuItemLabel_other X c.1 c.2.1 c.2.2 i
      (hall c (List.mem_cons_self c t))

/- ------------------------------------------------------------------ -/
/- Claim theorems.                                                     -/
/- ------------------------------------------------------------------ -/

/-- Claim C1, counterexample to the claim as stated: after Rebuild of the
example model (command, separator, command), the registry entry at the
separator position 1 is the default-constructed placeholder; its
model_index field was never assigned (indeterminate in the C++ source,
modelled as unset here), so it does not hold model index 1 as the claim
asserts for every position including separators. -/
theorem claimC1_counterexample :
    ((rebuild exState).items[1]?).map ItemData.modelIndex ≠ some (some 1)
    ∧ (rebuild exState).items[1]? = some ItemData.placeholder := by
  constructor
  · decide
  · decide

/-- Claim C1 (amended): after Rebuild, the registry `items_` has exactly
model.GetItemCount() entries, and the entry at position i is exactly the
entry built for model index i: for separators the placeholder dummy (whose
model_index is never assigned), and for every other item an entry whose
model_index equals i (registry positions coincide with model indices; the
first-item-index offset applies only to the OS menu positions). -/
theorem claimC1_rebuild_registry (s : NativeMenuWin) :
    (rebuild s).items.length = s.model.items.length
    ∧ (∀ i, i < s.model.items.length →
        (rebuild s).items[i]? = some (builtRegistryEntry s.model i)) := by
  constructor
  · rw [rebuild_items, length_buildBlock]
  · intro i hi
    rw [rebuild_items]
    have h := getElem?_buildBlock s.model s.model.items.length 0 i hi
    simpa using h

/-- Witness for C1's amended theorem at the example model: the entry at
position 0 is the built entry for model index 0 (model_index = 0), and the
registry length matches the model's item count. -/
theorem claimC1_witness :
    (rebuild exState).items[0]? = some (builtRegistryEntry exModel 0)
    ∧ (rebuild exState).items.length = exModel.items.length :=
  ⟨(claimC1_rebuild_registry exState).2 0 (by decide),
   (claimC1_rebuild_registry exState).1⟩

/-- Claim C2: when the OS delivers WM_EXITMENULOOP and then WM_MENUCOMMAND
in the same control-flow turn, the model observes ActivatedAt(position)
strictly before MenuClosed(), because the exit handler does not notify
inline: it posts OnMenuClosed as a follow-up task (second and third
conjuncts), which the MessageLoop runs only after the turn ends. -/
theorem claimC2_activated_before_closed (h : HostState) (pos : Nat)
    (htasks : h.tasks = []) :
    (processTurn h
        [WindowMessage.exitMenuLoop, WindowMessage.menuCommand pos]).trace
      = h.trace ++ [Notification.activatedAt pos, Notification.menuClosed]
    ∧ (processWindowMessage h WindowMessage.exitMenuLoop).trace = h.trace
    ∧ (processWindowMessage h WindowMessage.exitMenuLoop).tasks
        = h.tasks ++ [PendingTask.notifyMenuClosed] := by
  refine ⟨?_, rfl, rfl⟩
  unfold processTurn
  simp [processWindowMessage, onMenuCommand, onMenuClosed, runPendingTasks,
        htasks]

/-- Witness for C2 at a concrete empty host state and position 2. -/
theorem claimC2_witness :
    (processTurn { trace := [], tasks := [] }
        [WindowMessage.exitMenuLoop, WindowMessage.menuCommand 2]).trace
      = [Notification.activatedAt 2, Notification.menuClosed] := by
  have h := (claimC2_activated_before_closed
    { trace := [], tasks := [] } 2 rfl).1
  simpa using h

/-- Claim C3: position resolution.  If position k is the first position
whose command id equals the OS-provided value w, GetMenuItemIndexFromWPARAM
returns k; if no position's command id matches and w lies within
[0, itemCount), it returns w unchanged (submenu-highlight fallback). -/
theorem claimC3_position_resolution (menu : List OSItem) (w k : Nat) :
    (wIdAt menu k = some w →
      (∀ j, j < k → wIdAt menu j ≠ some w) →
      getMenuItemIndexFromWPARAM menu w = k)
    ∧ ((∀ j, j < menu.length → wIdAt menu j ≠ some w) → w < menu.length →
      getMenuItemIndexFromWPARAM menu w = w) := by
  constructor
  · intro hk hfirst
    unfold getMenuItemIndexFromWPARAM
    rw [findMatchingPosition_eq_some menu w k hk hfirst]
  · intro hnone _
    unfold getMenuItemIndexFromWPARAM
    rw [findMatchingPosition_eq_none menu w (fun j => by
      by_cases hj : j < menu.length
      · exact hnone j hj
      · simp [wIdAt, List.getElem?_eq_none (by omega : menu.length ≤ j)])]

/-- Witness for C3 on the example menu (ids 5, 0, 7): value 7 resolves to
its position 2, and the non-matching value 1 (within range) falls through
unchanged. -/
theorem claimC3_witness :
    getMenuItemIndexFromWPARAM exOSMenu 7 = 2
    ∧ getMenuItemIndexFromWPARAM exOSMenu 1 = 1 :=
  ⟨(claimC3_position_resolution exOSMenu 7 2).1 (by decide)
     (by decide),
   (claimC3_position_resolution exOSMenu 1 0).2 (by decide) (by decide)⟩

/-- Claim C4, counterexample to the claim as stated: SetMenuItemLabel on
the example item at position 2 (non-separator, command item whose model
provides an accelerator) stores label ++ tab ++ shortcut text in the
registry, not the label that was passed in. -/
theorem claimC4_counterexample :
    labelAtRegistry (setMenuItemLabel exBuilt 2 2 [90]) 2 ≠ some [90]
    ∧ isSeparatorItemAt exBuilt 2 = false := by
  constructor
  · decide
  · decide

/-- Claim C4 (amended): after SetMenuItemLabel(menu_index, model_index,
label) on a non-separator item, the registry entry at model_index stores
the formatted label derived from the passed label (the label itself, plus
a tab and the accelerator shortcut text when the model provides an
accelerator for a non-submenu item), and it still stores exactly that text
after any further SetMenuItemLabel calls targeting other model indices. -/
theorem claimC4_label_ownership (s : NativeMenuWin) (menuIndex modelIndex : Nat)
    (label : Wstr) (others : List (Nat × Nat × Wstr))
    (hsep : isSeparatorItemAt s menuIndex = false)
    (hlen : modelIndex < s.items.length)
    (hothers : ∀ c ∈ others, c.2.1 ≠ modelIndex) :
    labelAtRegistry
      (others.foldl (fun st c => setMenuItemLabel st c.1 c.2.1 c.2.2)
        (setMenuItemLabel s menuIndex modelIndex label))
      modelIndex
      = some (formatLabelWithAccel s.model modelIndex label) := by
  rw [labelAtRegistry_foldl_setMenuItemLabel modelIndex others
        (setMenuItemLabel s menuIndex modelIndex label) hothers]
  exact labelAtRegistry_setMenuItemLabel_self s menuIndex modelIndex label
    hsep hlen

/-- Witness for C4's amended theorem: set item 0's label to [90], then
relabel item 2; the registry still reads back item 0's stored text. -/
theorem claimC4_witness :
    labelAtRegistry
      ([((2 : Nat), (2 : Nat), ([88] : Wstr))].foldl
        (fun st c => setMenuItemLabel st c.1 c.2.1 c.2.2)
        (setMenuItemLabel exBuilt 0 0 [90]))
      0
      = some (formatLabelWithAccel exBuilt.model 0 [90]) :=
  claimC4_label_ownership exBuilt 0 0 [90] [(2, 2, [88])]
    (by decide) (by decide) (by decide)

/-- Claim C5, counterexample to the claim as stated: RunMenuAt performs no
rejection and no assertion when the process-wide open-instance slot is
already held.  From a state in which controller 5 holds the slot, a call
on behalf of controller 7 overwrites the slot (second conjunct) and the
modal loop still runs — its effect on the controller is observed (third
conjunct) — so a nested modal loop is started silently. -/
theorem claimC5_counterexample :
    exBusyProc.openNativeMenuWin = some 5
    ∧ (runMenuAtEntry exBusyProc 7).openNativeMenuWin = some 7
    ∧ (runMenuAt exLoopMarksNext exBusyProc 7).ctrl.menuAction
        = MenuAction.actionNext :=
  ⟨rfl, rfl, rfl⟩

/-- Claim C5 (amended): RunMenuAt has no reentrancy precondition check at
all.  Its behavior is independent of whether the open-instance slot is
already set (first conjunct: the run from a busy slot equals the run from
a cleared slot); it unconditionally overwrites the slot with this
controller before entering the modal loop (second conjunct) and clears it
on return, silently permitting nesting (the call even passes TPM_RECURSE). -/
theorem claimC5_no_reentrancy_check (track : ProcessState → ProcessState)
    (p : ProcessState) (self : Nat) :
    runMenuAt track p self
        = runMenuAt track { p with openNativeMenuWin := Option.none } self
    ∧ (runMenuAtEntry p self).openNativeMenuWin = some self :=
  ⟨rfl, rfl⟩

theorem ownerDraw_applyMenuOp (s : NativeMenuWin) (op : MenuOp)
    (h : s.ownerDraw = true) : (applyMenuOp s op).ownerDraw = true := by
  cases op with
  | opRebuild m2 =>
    show (rebuild { s with model := m2 }).ownerDraw = true
    rw [ownerDraw_rebuild]
    simp [h]
  | opUpdateStates =>
    show (updateStates s).ownerDraw = true
    rw [ownerDraw_updateStates]
    exact h
  | opRunAt a =>
    show (updateStates s).ownerDraw = true
    rw [ownerDraw_updateStates]
    exact h

theorem ownerDraw_foldl_applyMenuOp (ops : List MenuOp) :
    ∀ (s : NativeMenuWin), s.ownerDraw = true →
      (ops.foldl applyMenuOp s).ownerDraw = true := by
  induction ops with
  | nil => intro s h; exact h
  | cons op t ih =>
    intro s h
    simp only [List.foldl_cons]
    exact ih (applyMenuOp s op) (ownerDraw_applyMenuOp s op h)

/-- Claim C6: the owner-draw flag is monotone over the controller's
lifetime.  It is initialized at construction from the font override (and
the absence of a wrapped system menu), Rebuild raises it whenever the
model reports icons (ORing with its previous value), and no sequence of
Rebuild / UpdateStates / RunAt operations ever resets it from true back to
false. -/
theorem claimC6_ownerDraw_monotone (m : MenuModel) (needOverride : Bool)
    (sysMenu : Option (List OSItem)) (s : NativeMenuWin) (ops : List MenuOp) :
    (mkNativeMenuWin m needOverride sysMenu).ownerDraw
        = (needOverride && sysMenu.isNone)
    ∧ (rebuild s).ownerDraw = (s.model.hasIcons || s.ownerDraw)
    ∧ (s.ownerDraw = true → (ops.foldl applyMenuOp s).ownerDraw = true) :=
  ⟨rfl, ownerDraw_rebuild s, ownerDraw_foldl_applyMenuOp ops s⟩

/-- Witness for C6: a controller constructed with the theming override has
the flag raised, and it is still raised after an UpdateStates, a Rebuild
and a RunAt. -/
theorem claimC6_witness :
    (exOps.foldl applyMenuOp exOwnerDrawState).ownerDraw = true :=
  (claimC6_ownerDraw_monotone exModel true Option.none exOwnerDrawState
    exOps).2.2 rfl

/-- Claim C7: UpdateStates is idempotent.  With no intervening model
change (the model is part of the state and UpdateStates never mutates it),
a second call performs exactly the same writes — the whole controller
state, in particular the OS-visible per-item enabled/checked flags and the
labels re-pushed for dynamic items, is identical after one call and after
two. -/
theorem claimC7_updateStates_idempotent (s : NativeMenuWin) :
    updateStates (updateStates s) = updateStates s := by
  have h1 : (updateStates s).items.length = s.items.length :=
    itemsLength_updateStates s
  show (List.range (updateStates s).items.length).foldl updateStatesStep
        (updateStates s) = updateStates s
  rw [h1]
  exact foldl_twice updateStatesStep updateStatesStep_idem updateStatesStep_comm
    (List.range s.items.length) (List.nodup_range _) s

/-- Claim C8: RunMenuAt's open/close protocol.  The state handed to the
modal loop has menu_action_ = MENU_ACTION_NONE and the process-wide
open-instance slot set to this controller (first two conjuncts); the whole
call is exactly "run the loop from that entry state, then clear the slot"
(third conjunct), so the slot is null after return (fourth), and
GetMenuAction returns whatever action the loop resolved during that run
(fifth). -/
theorem claimC8_run_protocol (track : ProcessState → ProcessState)
    (p : ProcessState) (self : Nat) :
    (runMenuAtEntry p self).ctrl.menuAction = MenuAction.actionNone
    ∧ (runMenuAtEntry p self).openNativeMenuWin = some self
    ∧ runMenuAt track p self
        = { track (runMenuAtEntry p self) with
              openNativeMenuWin := Option.none }
    ∧ (runMenuAt track p self).openNativeMenuWin = Option.none
    ∧ getMenuAction (runMenuAt track p self).ctrl
        = (track (runMenuAtEntry p self)).ctrl.menuAction :=
  ⟨rfl, rfl, rfl, rfl, rfl⟩

/-- Claim C9: SystemMenuModel::GetFirstItemIndex returns
max(0, GetMenuItemCount - 1): never negative (even for an empty menu,
where it is 0), equal to count - 1 for nonempty menus, and therefore a new
item inserted at that index lands immediately before exactly the last
pre-existing entry of the wrapped system menu. -/
theorem claimC9_system_first_index (n : Int) (l : List OSItem) (x : OSItem)
    (front : List OSItem) (last : OSItem) :
    0 ≤ systemMenuModelGetFirstItemIndex n
    ∧ (n ≤ 0 → systemMenuModelGetFirstItemIndex n = 0)
    ∧ (1 ≤ n → systemMenuModelGetFirstItemIndex n = n - 1)
    ∧ (l = front ++ [last] →
        insertAt (systemMenuModelGetFirstItemIndex (l.length : Int)).toNat x l
          = front ++ x :: [last]) := by
  refine ⟨le_max_left 0 _, ?_, ?_, ?_⟩
  · intro h
    unfold systemMenuModelGetFirstItemIndex
    omega
  · intro h
    unfold systemMenuModelGetFirstItemIndex
    omega
  · intro h
    subst h
    have h2 : (systemMenuModelGetFirstItemIndex
        (((front ++ [last]).length : Nat) : Int)).toNat = front.length := by
      unfold systemMenuModelGetFirstItemIndex
      simp
    rw [h2]
    exact insertAt_append front [last] x

/-- Witness for C9: for the three-entry example system menu, the insertion
index is 2 and a new item lands between the separator and the final item;
an empty menu yields index 0 and a one-item menu yields 0 as well. -/
theorem claimC9_witness :
    systemMenuModelGetFirstItemIndex 0 = 0
    ∧ systemMenuModelGetFirstItemIndex 3 = 3 - 1
    ∧ insertAt (systemMenuModelGetFirstItemIndex
          ((exOSMenu.length : Nat) : Int)).toNat exOSItemA exOSMenu
        = [exOSItemA, exOSItemSep] ++ exOSItemA :: [exOSItemC] :=
  ⟨(claimC9_system_first_index 0 [] exOSItemA [] exOSItemA).2.1 (by decide),
   (claimC9_system_first_index 3 [] exOSItemA [] exOSItemA).2.2.1 (by decide),
   (claimC9_system_first_index 3 exOSMenu exOSItemA [exOSItemA, exOSItemSep]
      exOSItemC).2.2.2 (by decide)⟩

/-- Claim C10: when an item is built (AddMenuItemAt) or relabeled
(SetMenuItemLabel), both of which store the formatted label through
UpdateMenuItemInfoForString, a non-submenu item with a model-provided
accelerator stores the model label followed by a tab (code unit 9) and the
accelerator's shortcut text, while a submenu item stores exactly the label
with nothing appended; the registry entry (whose text the OS-visible
MENUITEMINFO string points at) reads back that formatted label. -/
theorem claimC10_label_formatting (s : NativeMenuWin) (i : Nat) (lbl : Wstr)
    (hlen : i < s.items.length) :
    ((s.model.itemAt i).itype = ItemType.submenu →
       formatLabelWithAccel s.model i lbl = lbl)
    ∧ (∀ a, (s.model.itemAt i).itype ≠ ItemType.submenu →
        (s.model.itemAt i).accel = some a →
        formatLabelWithAccel s.model i lbl = lbl ++ 9 :: a)
    ∧ labelAtRegistry (updateMenuItemInfoForString s i lbl) i
        = some (formatLabelWithAccel s.model i lbl) := by
  refine ⟨?_, ?_, ?_⟩
  · intro h
    simp [formatLabelWithAccel, h]
  · intro a hns ha
    simp [formatLabelWithAccel, hns, ha]
  · unfold updateMenuItemInfoForString writeItemsAt labelAtRegistry
    simp [getElem?_modifyAt, List.getElem?_eq_getElem hlen]

/-- Witness for C10 at the example item 2 (accelerator shortcut [94, 84]):
the stored text is the label plus tab plus shortcut, and the registry
reads it back. -/
theorem claimC10_witness :
    formatLabelWithAccel exBuilt.model 2 [67] = [67] ++ 9 :: [94, 84]
    ∧ labelAtRegistry (updateMenuItemInfoForString exBuilt 2 [67]) 2
        = some (formatLabelWithAccel exBuilt.model 2 [67]) :=
  ⟨(claimC10_label_formatting exBuilt 2 [67] (by decide)).2.1 [94, 84]
     (by decide) (by decide),
   (claimC10_label_formatting exBuilt 2 [67] (by decide)).2.2⟩
